import Mathlib

set_option maxRecDepth 10000

/-!
Shallow embedding of the product-description workflow in
`app/routes/app._index.tsx` of the shopify-remix-meetup-app repository.

The `action` handler receives a form payload (`productId`, `action`, and on
update `description`) and dispatches:
  * missing/empty `productId` → `{error: "Product ID is required"}` (400);
  * `action === "update"` → a `productUpdate` GraphQL mutation, wrapped in
    try/catch;
  * any other action → a single-product GraphQL read, an optional image
    fetch + base64 encode (outside any try/catch), and a POST to the
    text-generation API (inside try/catch).

External collaborators (the authenticated GraphQL client, the image host,
the generation endpoint) are modelled by an `Env` record giving the outcome
of each outbound call; a thrown JavaScript exception is `Except.error`.
The embedding returns the handler's outcome — either a JSON response or an
uncaught exception — together with the list of external calls performed,
in order.
-/

namespace MeetupApp

/-- A product variant as returned by the catalog queries (`title`, `price`;
the list query also selects `id`). -/
structure Variant where
  id : String := ""
  title : String
  price : String
deriving Repr, DecidableEq

/-- A product as held by the upstream store: the fields selected by the
queries in the route.  `variants` is the full upstream variant list; the
queries request only the first `variants(first: 5)` of it. -/
structure Product where
  id : String := ""
  title : String
  onlineStoreUrl : Option String := none
  featuredImageUrl : Option String := none
  variants : List Variant := []
  descriptionHtml : Option String := none
deriving Repr, DecidableEq

/-- `data.productUpdate.product` of a successful `productUpdate` mutation. -/
structure UpdateProduct where
  onlineStoreUrl : Option String := none
  onlineStorePreviewUrl : Option String := none
deriving Repr, DecidableEq

/-- One item of the generation API reply's `content` array; `text` is
`none` when the item has no `text` field. -/
structure AIContentItem where
  text : Option String := none
deriving Repr, DecidableEq

/-- Parsed JSON body of the generation API reply; `content` is `none` when
the `content` field is absent (or JSON `null`). -/
structure AIBody where
  content : Option (List AIContentItem) := none
deriving Repr, DecidableEq

/-- The generation API HTTP reply: status code plus the outcome of
`aiResponse.json()` (which throws on a non-JSON body). -/
structure AIHttpResponse where
  status : Nat
  body : Except String AIBody
deriving Repr

/-- `Response.ok` of the fetch API: status in the 2xx range. -/
def respOk (status : Nat) : Bool :=
  200 ≤ status && status ≤ 299

/-- Outcomes of the external world for one `action` call.
`Except.error` models a thrown exception (transport failure, malformed
payload, or a property access on `null`). -/
structure Env where
  /-- Outcome of the `productUpdate` mutation: the mutation call,
  `productResponse.json()` and the access to `data.productUpdate.product`
  collapse to either the product's URL fields or a throw. -/
  productUpdate : Except String UpdateProduct
  /-- Outcome of the single-product read: a throw (transport or malformed
  `json()`), or `data.product`, which is `none` when the id does not
  resolve. -/
  productLookup : Except String (Option Product)
  /-- Outcome of `fetch(imageUrl)` + `arrayBuffer()` + base64 encoding:
  the encoded string, or a throw on transport failure. -/
  imageFetch : Except String String
  /-- Outcome of the POST to the generation endpoint: a reply, or a throw
  on transport failure. -/
  aiFetch : Except String AIHttpResponse

/-- The form payload; `none` models an absent field (`formData.get`
returning `null`). -/
structure Payload where
  productId : Option String := none
  action : Option String := none
  description : Option String := none
deriving Repr, DecidableEq

/-- JavaScript truthiness of a nullable string: `null` and `""` are falsy. -/
def jsTruthy : Option String → Bool
  | none => false
  | some s => !(s == "")

/-- JavaScript `a || b` on nullable strings. -/
def jsOr (a b : Option String) : Option String :=
  if jsTruthy a then a else b

/-- The JSON responses the handler can produce. -/
inductive ActionResponse where
  /-- `json({error}, {status})`. -/
  | errorEnvelope (error : String) (status : Nat)
  /-- `json({success: true, onlineStoreUrl})`. -/
  | successEnvelope (onlineStoreUrl : Option String)
  /-- `json({description})`. -/
  | descriptionEnvelope (description : String)
deriving Repr, DecidableEq

/-- The request body sent to the generation endpoint: fixed model and
bounds, the composed prompt text, and the optional base64 image block. -/
structure RequestData where
  model : String
  max_tokens : Nat
  system : String
  text : String
  image : Option String
deriving Repr, DecidableEq

/-- One outbound external call, recorded in order of execution. -/
inductive ExtCall where
  /-- The `productUpdate` write mutation with its `input` variables. -/
  | updateMutation (productId : String) (descriptionHtml : Option String)
  /-- The single-product read query of the generate path. -/
  | productQuery (productId : String)
  /-- The featured-image fetch. -/
  | imageFetchCall (url : String)
  /-- The POST to the generation endpoint. -/
  | aiCall (req : RequestData)
deriving Repr, DecidableEq

/-- `variants(first: 5)` in the generate path's single-product query. -/
def generateVariantsFirst : Nat := 5

/-- `products(first: 20)` in the loader's catalog query. -/
def loaderProductsFirst : Nat := 20

/-- `variants(first: 5)` in the loader's catalog query. -/
def loaderVariantsFirst : Nat := 5

/-- `` `${edge.node.title} - $${edge.node.price}` ``. -/
def formatVariant (v : Variant) : String :=
  v.title ++ " - $" ++ v.price

/-- The template-literal prompt up to (but excluding) the conditional
image clause. -/
def buildPromptBase (title : String) (variantStrs : List String) : String :=
  "Generate an engaging product description for the following product:\n" ++
  "  Title: " ++ title ++ "\n" ++
  "  Variants: " ++ String.intercalate ", " variantStrs ++ "\n" ++
  "  Please provide a compelling product description that highlights key features, benefits, and unique selling points. Ensure the description is SEO-friendly and approximately 150-200 words long."

/-- `' Use the provided image for additional context.'`, appended when
`imageUrl` is truthy. -/
def imageClause : String := " Use the provided image for additional context."

/-- The full composed prompt text. -/
def buildPromptText (title : String) (variantStrs : List String)
    (hasImage : Bool) : String :=
  buildPromptBase title variantStrs ++ (if hasImage then imageClause else "")

/-- The canned placeholder returned on a rejected or malformed AI reply. -/
def fallbackDescription : String :=
  "Failed to generate description. Let`s try use this one for demo purposes."

/-- The error message of the generate path's catch block. -/
def generateErrorMessage : String :=
  "Failed to generate description. Please try again later."

/-- Stand-in message for the uncaught `TypeError` raised by
`productData.data.product.title` when `data.product` is `null`. -/
def nullProductError : String :=
  "TypeError: Cannot read properties of null (reading title)"

/-- The `action === "update"` branch (lines 71–102): one `productUpdate`
mutation with the payload description passed through verbatim; any throw
inside the try block becomes a 500 error envelope; on success the public
URL is `onlineStoreUrl || onlineStorePreviewUrl`. -/
def runUpdate (env : Env) (productId : String) (description : Option String) :
    Except String ActionResponse × List ExtCall :=
  let calls := [ExtCall.updateMutation productId description]
  match env.productUpdate with
  | .error _ =>
      (.ok (.errorEnvelope "Failed to update product description" 500), calls)
  | .ok prod =>
      (.ok (.successEnvelope (jsOr prod.onlineStoreUrl prod.onlineStorePreviewUrl)),
       calls)

/-- The `content`/`content[0]`/`content[0].text` falsiness check of
lines 191: true when the fallback placeholder is returned.  An empty
`content` array is truthy in JavaScript but `content[0]` is then
`undefined`, hence falsy; an empty `text` string is falsy. -/
def missingText (b : AIBody) : Bool :=
  match b.content with
  | none => true
  | some [] => true
  | some (item :: _) =>
      match item.text with
      | none => true
      | some t => t == ""

/-- The try/catch around the generation POST (lines 169–207). -/
def runAICall (env : Env) (req : RequestData) (calls : List ExtCall) :
    Except String ActionResponse × List ExtCall :=
  let calls := calls ++ [ExtCall.aiCall req]
  match env.aiFetch with
  | .error _ => (.ok (.errorEnvelope generateErrorMessage 500), calls)
  | .ok resp =>
      if !respOk resp.status then
        (.ok (.descriptionEnvelope fallbackDescription), calls)
      else
        match resp.body with
        | .error _ => (.ok (.errorEnvelope generateErrorMessage 500), calls)
        | .ok body =>
            if missingText body then
              (.ok (.descriptionEnvelope fallbackDescription), calls)
            else
              match body.content with
              | some (item :: _) =>
                  (.ok (.descriptionEnvelope (item.text.getD "")), calls)
              | _ => (.ok (.descriptionEnvelope fallbackDescription), calls)

/-- The `requestData` object of lines 141–167 for a looked-up product and
the (possibly absent) base64-encoded image.  The prompt's image clause is
keyed on the image URL being truthy; the image attachment is keyed on the
base64 string being truthy. -/
def generateRequest (prod : Product) (imageBase64 : Option String) : RequestData :=
  { model := "claude-3-opus-20240229"
    max_tokens := 1000
    system := "You are a professional product copywriter specializing in creating compelling and SEO-friendly product descriptions."
    text := buildPromptText prod.title
      ((prod.variants.take generateVariantsFirst).map formatVariant)
      (jsTruthy prod.featuredImageUrl)
    image := if jsTruthy imageBase64 then imageBase64 else none }

/-- The generate path (lines 104–207): single-product read (uncaught on
throw, and an uncaught `TypeError` when `data.product` is `null`),
optional image fetch (uncaught on throw), prompt composition, and the
generation POST. -/
def runGenerate (env : Env) (productId : String) :
    Except String ActionResponse × List ExtCall :=
  let calls0 := [ExtCall.productQuery productId]
  match env.productLookup with
  | .error e => (.error e, calls0)
  | .ok none => (.error nullProductError, calls0)
  | .ok (some prod) =>
      if jsTruthy prod.featuredImageUrl then
        let calls1 := calls0 ++ [ExtCall.imageFetchCall (prod.featuredImageUrl.getD "")]
        match env.imageFetch with
        | .error e => (.error e, calls1)
        | .ok b64 => runAICall env (generateRequest prod (some b64)) calls1
      else
        runAICall env (generateRequest prod none) calls0

/-- The full `action` handler (lines 61–208). -/
def runAction (env : Env) (p : Payload) :
    Except String ActionResponse × List ExtCall :=
  if !jsTruthy p.productId then
    (.ok (.errorEnvelope "Product ID is required" 400), [])
  else
    let productId := p.productId.getD ""
    if p.action == some "update" then
      runUpdate env productId p.description
    else
      runGenerate env productId

/-- The `loader` (lines 26–59): first 20 products, each with its first 5
variants. -/
def runLoader (store : List Product) : List Product :=
  (store.take loaderProductsFirst).map
    (fun p => { p with variants := p.variants.take loaderVariantsFirst })

/-! ### String containment, used to state the scenario checks -/

/-- Whether `pat` is a prefix of `s` (character lists). -/
def listStartsWith : List Char → List Char → Bool
  | _, [] => true
  | [], _ :: _ => false
  | a :: as, b :: bs => (a == b) && listStartsWith as bs

/-- Whether `pat` occurs as a contiguous run inside `s` (character lists). -/
def listOccursIn : List Char → List Char → Bool
  | [], pat => pat.isEmpty
  | a :: as, pat => listStartsWith (a :: as) pat || listOccursIn as pat

/-- Whether `pat` occurs as a substring of `s`. -/
def strContains (s pat : String) : Bool :=
  listOccursIn s.data pat.data

/-! ### Predicates on the call trace -/

/-- Whether a call is the `productUpdate` write mutation. -/
def isMutation : ExtCall → Bool
  | .updateMutation _ _ => true
  | _ => false

/-- Whether a call is the generate path's single-product read query. -/
def isProductQuery : ExtCall → Bool
  | .productQuery _ => true
  | _ => false

/-- Whether a call is the POST to the generation endpoint. -/
def isAICall : ExtCall → Bool
  | .aiCall _ => true
  | _ => false

/-! ### Reduction lemmas -/

theorem runAction_generate_eq (env : Env) (p : Payload) (pid : String)
    (hpid : p.productId = some pid) (hne : pid ≠ "")
    (hact : p.action ≠ some "update") :
    runAction env p = runGenerate env pid := by
  unfold runAction
  rw [hpid]
  simp [jsTruthy, hne, hact]

theorem runAction_update_eq (env : Env) (p : Payload) (pid : String)
    (hpid : p.productId = some pid) (hne : pid ≠ "")
    (hact : p.action = some "update") :
    runAction env p = runUpdate env pid p.description := by
  unfold runAction
  rw [hpid]
  simp [jsTruthy, hne, hact]

theorem runUpdate_snd (env : Env) (pid : String) (d : Option String) :
    (runUpdate env pid d).2 = [ExtCall.updateMutation pid d] := by
  unfold runUpdate
  rcases env.productUpdate with e | prod <;> rfl

theorem runAICall_snd (env : Env) (req : RequestData) (calls : List ExtCall) :
    (runAICall env req calls).2 = calls ++ [ExtCall.aiCall req] := by
  unfold runAICall
  rcases h : env.aiFetch with e | resp
  · rfl
  · simp only []
    split
    · rfl
    · split
      · rfl
      · split
        · rfl
        · split <;> rfl

theorem runAICall_transport_error (env : Env) (req : RequestData)
    (calls : List ExtCall) (e : String) (h : env.aiFetch = .error e) :
    runAICall env req calls =
      (.ok (.errorEnvelope generateErrorMessage 500), calls ++ [ExtCall.aiCall req]) := by
  unfold runAICall
  rw [h]

theorem runAICall_fallback (env : Env) (req : RequestData) (calls : List ExtCall)
    (resp : AIHttpResponse) (h : env.aiFetch = .ok resp)
    (hbad : respOk resp.status = false ∨
            ∃ b, resp.body = .ok b ∧ missingText b = true) :
    runAICall env req calls =
      (.ok (.descriptionEnvelope fallbackDescription), calls ++ [ExtCall.aiCall req]) := by
  unfold runAICall
  rw [h]
  rcases hbad with hbad | ⟨b, hb, hmiss⟩
  · simp [hbad]
  · cases hok : respOk resp.status
    · simp [hok]
    · simp [hok, hb, hmiss]

theorem runGenerate_lookup_error (env : Env) (pid : String) (e : String)
    (h : env.productLookup = .error e) :
    runGenerate env pid = (.error e, [ExtCall.productQuery pid]) := by
  unfold runGenerate
  rw [h]

theorem runGenerate_lookup_none (env : Env) (pid : String)
    (h : env.productLookup = .ok none) :
    runGenerate env pid = (.error nullProductError, [ExtCall.productQuery pid]) := by
  unfold runGenerate
  rw [h]

theorem runGenerate_image_error (env : Env) (pid : String) (prod : Product)
    (e : String) (hlookup : env.productLookup = .ok (some prod))
    (himgurl : jsTruthy prod.featuredImageUrl = true)
    (hfetch : env.imageFetch = .error e) :
    runGenerate env pid =
      (.error e,
       [ExtCall.productQuery pid,
        ExtCall.imageFetchCall (prod.featuredImageUrl.getD "")]) := by
  unfold runGenerate
  rw [hlookup]
  simp [himgurl, hfetch]

theorem runGenerate_image_ok (env : Env) (pid : String) (prod : Product)
    (b64 : String) (hlookup : env.productLookup = .ok (some prod))
    (himgurl : jsTruthy prod.featuredImageUrl = true)
    (hfetch : env.imageFetch = .ok b64) :
    runGenerate env pid =
      runAICall env (generateRequest prod (some b64))
        [ExtCall.productQuery pid,
         ExtCall.imageFetchCall (prod.featuredImageUrl.getD "")] := by
  unfold runGenerate
  rw [hlookup]
  simp [himgurl, hfetch]

theorem runGenerate_noimage (env : Env) (pid : String) (prod : Product)
    (hlookup : env.productLookup = .ok (some prod))
    (himgurl : jsTruthy prod.featuredImageUrl = false) :
    runGenerate env pid =
      runAICall env (generateRequest prod none) [ExtCall.productQuery pid] := by
  unfold runGenerate
  rw [hlookup]
  simp [himgurl]

/-! ### Claim theorems -/

/-- C1: whenever the generation endpoint replies with a non-2xx status, or
with a 2xx status whose JSON body lacks the expected text field (no
`content`, empty `content`, or missing/empty `content[0].text`), the
generate path returns a success-shaped `{description}` response carrying
the fixed canned placeholder string, never an error envelope. -/
theorem generator_fallback_on_bad_reply (env : Env) (p : Payload) (pid : String)
    (prod : Product) (b64 : String) (resp : AIHttpResponse)
    (hpid : p.productId = some pid) (hne : pid ≠ "")
    (hact : p.action ≠ some "update")
    (hlookup : env.productLookup = .ok (some prod))
    (himg : env.imageFetch = .ok b64)
    (hresp : env.aiFetch = .ok resp)
    (hbad : respOk resp.status = false ∨
            ∃ b, resp.body = .ok b ∧ missingText b = true) :
    (runAction env p).1 = .ok (.descriptionEnvelope fallbackDescription) := by
  rw [runAction_generate_eq env p pid hpid hne hact]
  cases himgurl : jsTruthy prod.featuredImageUrl
  · rw [runGenerate_noimage env pid prod hlookup himgurl,
        runAICall_fallback env _ _ resp hresp hbad]
  · rw [runGenerate_image_ok env pid prod b64 hlookup himgurl himg,
        runAICall_fallback env _ _ resp hresp hbad]

/-- Witness for C1: HTTP 500 reply, concrete product without image. -/
theorem generator_fallback_on_bad_reply_witness :
    ((Payload.mk (some "gid://shopify/Product/1") (some "generate") none).productId
        = some "gid://shopify/Product/1" ∧
      "gid://shopify/Product/1" ≠ "" ∧
      (Payload.mk (some "gid://shopify/Product/1") (some "generate") none).action
        ≠ some "update" ∧
      (Env.mk (.error "unused") (.ok (some { title := "Blue Mug", variants := [] }))
          (.ok "b64") (.ok { status := 500, body := .error "not json" })).productLookup
        = .ok (some { title := "Blue Mug", variants := [] }) ∧
      respOk 500 = false) ∧
    (runAction
        (Env.mk (.error "unused") (.ok (some { title := "Blue Mug", variants := [] }))
          (.ok "b64") (.ok { status := 500, body := .error "not json" }))
        (Payload.mk (some "gid://shopify/Product/1") (some "generate") none)).1
      = .ok (.descriptionEnvelope fallbackDescription) :=
  ⟨⟨rfl, by decide, by decide, rfl, by decide⟩,
    generator_fallback_on_bad_reply _ _ "gid://shopify/Product/1"
      { title := "Blue Mug", variants := [] } "b64"
      { status := 500, body := .error "not json" }
      rfl (by decide) (by decide) rfl rfl rfl (Or.inl (by decide))⟩

/-- C2: whenever the POST to the generation endpoint itself throws
(transport failure, or a throw while reading the body inside the try
block), the generate path returns the error envelope
`{error: "Failed to generate description. Please try again later."}` with
status 500 — not a success result and not the placeholder. -/
theorem generator_error_on_transport_failure (env : Env) (p : Payload)
    (pid : String) (prod : Product) (b64 : String) (e : String)
    (hpid : p.productId = some pid) (hne : pid ≠ "")
    (hact : p.action ≠ some "update")
    (hlookup : env.productLookup = .ok (some prod))
    (himg : env.imageFetch = .ok b64)
    (hai : env.aiFetch = .error e) :
    (runAction env p).1 = .ok (.errorEnvelope generateErrorMessage 500) := by
  rw [runAction_generate_eq env p pid hpid hne hact]
  cases himgurl : jsTruthy prod.featuredImageUrl
  · rw [runGenerate_noimage env pid prod hlookup himgurl,
        runAICall_transport_error env _ _ e hai]
  · rw [runGenerate_image_ok env pid prod b64 hlookup himgurl himg,
        runAICall_transport_error env _ _ e hai]

/-- Witness for C2: unreachable generation endpoint. -/
theorem generator_error_on_transport_failure_witness :
    ((Payload.mk (some "gid://shopify/Product/2") (some "generate") none).productId
        = some "gid://shopify/Product/2" ∧
      "gid://shopify/Product/2" ≠ "" ∧
      (Payload.mk (some "gid://shopify/Product/2") (some "generate") none).action
        ≠ some "update" ∧
      (Env.mk (.error "unused") (.ok (some { title := "Mug", variants := [] }))
          (.ok "b64") (.error "fetch failed: ECONNREFUSED")).aiFetch
        = .error "fetch failed: ECONNREFUSED") ∧
    (runAction
        (Env.mk (.error "unused") (.ok (some { title := "Mug", variants := [] }))
          (.ok "b64") (.error "fetch failed: ECONNREFUSED"))
        (Payload.mk (some "gid://shopify/Product/2") (some "generate") none)).1
      = .ok (.errorEnvelope generateErrorMessage 500) :=
  ⟨⟨rfl, by decide, by decide, rfl⟩,
    generator_error_on_transport_failure _ _ "gid://shopify/Product/2"
      { title := "Mug", variants := [] } "b64" "fetch failed: ECONNREFUSED"
      rfl (by decide) (by decide) rfl rfl rfl⟩

/-- C3: whenever the payload's product id is absent or empty, the handler
returns the `{error: "Product ID is required"}` envelope with status 400
and performs zero external calls, whatever the action value. -/
theorem validation_rejects_missing_product_id (env : Env) (p : Payload)
    (h : jsTruthy p.productId = false) :
    runAction env p = (.ok (.errorEnvelope "Product ID is required" 400), []) := by
  unfold runAction
  rw [h]
  rfl

/-- Witness for C3: absent product id on an update call. -/
theorem validation_rejects_missing_product_id_witness :
    jsTruthy (Payload.mk none (some "update") (some "desc")).productId = false ∧
    runAction
        (Env.mk (.ok { onlineStoreUrl := some "https://x" }) (.error "unused")
          (.error "unused") (.error "unused"))
        (Payload.mk none (some "update") (some "desc"))
      = (.ok (.errorEnvelope "Product ID is required" 400), []) :=
  ⟨by decide,
    validation_rejects_missing_product_id _ _ (by decide)⟩

/-- C4 counterexample: with a valid product id and a lookup that returns
`data.product = null`, the handler's outcome is an uncaught exception
(the `.title` access on `null`), not an `{error: string}` envelope — so no
`NotFoundError` is converted at the boundary and a raw exception does
propagate to the UI layer. -/
theorem notfound_envelope_counterexample :
    (runAction
        (Env.mk (.error "unused") (.ok none) (.error "unused") (.error "unused"))
        (Payload.mk (some "gid://shopify/Product/404") (some "generate") none)).1
      = .error nullProductError ∧
    ∀ msg status,
      (runAction
          (Env.mk (.error "unused") (.ok none) (.error "unused") (.error "unused"))
          (Payload.mk (some "gid://shopify/Product/404") (some "generate") none)).1
        ≠ .ok (.errorEnvelope msg status) := by
  constructor
  · rfl
  · intro msg status h
    rw [show (runAction
          (Env.mk (.error "unused") (.ok none) (.error "unused") (.error "unused"))
          (Payload.mk (some "gid://shopify/Product/404") (some "generate") none)).1
        = Except.error nullProductError from rfl] at h
    exact Except.noConfusion h

/-- C4 amended: when the product lookup returns no product on a generate
call, the field access on the `null` product raises an uncaught exception
that propagates raw out of the handler (the try/catch only wraps the
generation POST); no error envelope is produced and no further external
call is made. -/
theorem notfound_raises_uncaught (env : Env) (p : Payload) (pid : String)
    (hpid : p.productId = some pid) (hne : pid ≠ "")
    (hact : p.action ≠ some "update")
    (hlookup : env.productLookup = .ok none) :
    runAction env p = (.error nullProductError, [ExtCall.productQuery pid]) := by
  rw [runAction_generate_eq env p pid hpid hne hact,
      runGenerate_lookup_none env pid hlookup]

/-- Witness for the amended C4. -/
theorem notfound_raises_uncaught_witness :
    ((Payload.mk (some "gid://shopify/Product/404") (some "generate") none).productId
        = some "gid://shopify/Product/404" ∧
      "gid://shopify/Product/404" ≠ "" ∧
      (Payload.mk (some "gid://shopify/Product/404") (some "generate") none).action
        ≠ some "update" ∧
      (Env.mk (.error "u2") (.ok none) (.error "u2") (.error "u2")).productLookup
        = .ok none) ∧
    runAction (Env.mk (.error "u2") (.ok none) (.error "u2") (.error "u2"))
        (Payload.mk (some "gid://shopify/Product/404") (some "generate") none)
      = (.error nullProductError, [ExtCall.productQuery "gid://shopify/Product/404"]) :=
  ⟨⟨rfl, by decide, by decide, rfl⟩,
    notfound_raises_uncaught _ _ "gid://shopify/Product/404"
      rfl (by decide) (by decide) rfl⟩

/-- C5 counterexample: with a product that has a featured image URL and an
image fetch that throws, the generate call aborts with an uncaught
exception — it does not proceed without image context, produces no
`GenerationResult`, and never reaches the generation endpoint. -/
theorem image_failure_nonfatal_counterexample :
    runAction
        (Env.mk (.error "unused")
          (.ok (some { title := "Mug",
                       featuredImageUrl := some "https://cdn.example/mug.jpg",
                       variants := [] }))
          (.error "image fetch: network down") (.ok { status := 200, body := .ok {} }))
        (Payload.mk (some "gid://shopify/Product/5") (some "generate") none)
      = (.error "image fetch: network down",
         [ExtCall.productQuery "gid://shopify/Product/5",
          ExtCall.imageFetchCall "https://cdn.example/mug.jpg"]) ∧
    (∀ r, (runAction
        (Env.mk (.error "unused")
          (.ok (some { title := "Mug",
                       featuredImageUrl := some "https://cdn.example/mug.jpg",
                       variants := [] }))
          (.error "image fetch: network down") (.ok { status := 200, body := .ok {} }))
        (Payload.mk (some "gid://shopify/Product/5") (some "generate") none)).1
      ≠ .ok r) ∧
    (∀ req, ExtCall.aiCall req ∉ (runAction
        (Env.mk (.error "unused")
          (.ok (some { title := "Mug",
                       featuredImageUrl := some "https://cdn.example/mug.jpg",
                       variants := [] }))
          (.error "image fetch: network down") (.ok { status := 200, body := .ok {} }))
        (Payload.mk (some "gid://shopify/Product/5") (some "generate") none)).2) := by
  refine ⟨rfl, ?_, ?_⟩
  · intro r h
    exact Except.noConfusion (h.symm.trans rfl)
  · intro req h
    simp only [show (runAction
        (Env.mk (.error "unused")
          (.ok (some { title := "Mug",
                       featuredImageUrl := some "https://cdn.example/mug.jpg",
                       variants := [] }))
          (.error "image fetch: network down") (.ok { status := 200, body := .ok {} }))
        (Payload.mk (some "gid://shopify/Product/5") (some "generate") none)).2
      = [ExtCall.productQuery "gid://shopify/Product/5",
         ExtCall.imageFetchCall "https://cdn.example/mug.jpg"] from rfl] at h
    simp at h

/-- C5 amended: a throwing featured-image fetch is fatal, not non-fatal:
the exception is uncaught (the fetch sits outside the try/catch), the
call aborts, and the generation endpoint is never contacted. -/
theorem image_fetch_failure_aborts (env : Env) (p : Payload) (pid : String)
    (prod : Product) (e : String)
    (hpid : p.productId = some pid) (hne : pid ≠ "")
    (hact : p.action ≠ some "update")
    (hlookup : env.productLookup = .ok (some prod))
    (himgurl : jsTruthy prod.featuredImageUrl = true)
    (hfetch : env.imageFetch = .error e) :
    runAction env p =
      (.error e,
       [ExtCall.productQuery pid,
        ExtCall.imageFetchCall (prod.featuredImageUrl.getD "")]) := by
  rw [runAction_generate_eq env p pid hpid hne hact,
      runGenerate_image_error env pid prod e hlookup himgurl hfetch]

/-- Witness for the amended C5. -/
theorem image_fetch_failure_aborts_witness :
    ((Payload.mk (some "gid://shopify/Product/5") (some "generate") none).productId
        = some "gid://shopify/Product/5" ∧
      "gid://shopify/Product/5" ≠ "" ∧
      (Payload.mk (some "gid://shopify/Product/5") (some "generate") none).action
        ≠ some "update" ∧
      jsTruthy (some "https://cdn.example/mug.jpg") = true) ∧
    runAction
        (Env.mk (.error "u3")
          (.ok (some { title := "Mug",
                       featuredImageUrl := some "https://cdn.example/mug.jpg",
                       variants := [] }))
          (.error "image fetch: network down") (.error "u3"))
        (Payload.mk (some "gid://shopify/Product/5") (some "generate") none)
      = (.error "image fetch: network down",
         [ExtCall.productQuery "gid://shopify/Product/5",
          ExtCall.imageFetchCall "https://cdn.example/mug.jpg"]) :=
  ⟨⟨rfl, by decide, by decide, by decide⟩,
    image_fetch_failure_aborts _ _ "gid://shopify/Product/5"
      { title := "Mug", featuredImageUrl := some "https://cdn.example/mug.jpg",
        variants := [] }
      "image fetch: network down" rfl (by decide) (by decide) rfl (by decide) rfl⟩

theorem runGenerate_trace_cases (env : Env) (pid : String) :
    (runGenerate env pid).2 = [ExtCall.productQuery pid] ∨
    (∃ u, (runGenerate env pid).2 =
        [ExtCall.productQuery pid, ExtCall.imageFetchCall u]) ∨
    (∃ u r, (runGenerate env pid).2 =
        [ExtCall.productQuery pid, ExtCall.imageFetchCall u, ExtCall.aiCall r]) ∨
    (∃ r, (runGenerate env pid).2 =
        [ExtCall.productQuery pid, ExtCall.aiCall r]) := by
  rcases h : env.productLookup with e | op
  · rw [runGenerate_lookup_error env pid e h]
    left; rfl
  · rcases op with _ | prod
    · rw [runGenerate_lookup_none env pid h]
      left; rfl
    · cases himg : jsTruthy prod.featuredImageUrl
      · rw [runGenerate_noimage env pid prod h himg]
        right; right; right
        exact ⟨generateRequest prod none, by rw [runAICall_snd]; rfl⟩
      · rcases hf : env.imageFetch with e | b64
        · rw [runGenerate_image_error env pid prod e h himg hf]
          right; left
          exact ⟨prod.featuredImageUrl.getD "", rfl⟩
        · rw [runGenerate_image_ok env pid prod b64 h himg hf]
          right; right; left
          exact ⟨prod.featuredImageUrl.getD "", generateRequest prod (some b64),
            by rw [runAICall_snd]; rfl⟩

/-- C6: dispatch is total and exclusive.  For any call with a valid
product id: on `action = "update"` exactly one write mutation is issued
and the Generator is never entered (no product read, no generation POST);
on any other action the Generator's product read is issued exactly once,
no mutation is issued, and at most one generation POST happens; and no
call ever performs both a write and a generation POST. -/
theorem dispatch_total_and_exclusive (env : Env) (p : Payload) (pid : String)
    (hpid : p.productId = some pid) (hne : pid ≠ "") :
    (p.action = some "update" →
        ((runAction env p).2.countP isMutation = 1 ∧
         (runAction env p).2.countP isProductQuery = 0 ∧
         (runAction env p).2.countP isAICall = 0)) ∧
    (p.action ≠ some "update" →
        ((runAction env p).2.countP isProductQuery = 1 ∧
         (runAction env p).2.countP isMutation = 0 ∧
         (runAction env p).2.countP isAICall ≤ 1)) ∧
    ¬(1 ≤ (runAction env p).2.countP isMutation ∧
      1 ≤ (runAction env p).2.countP isAICall) := by
  by_cases hact : p.action = some "update"
  · rw [runAction_update_eq env p pid hpid hne hact, runUpdate_snd]
    refine ⟨fun _ => ?_, fun hn => absurd hact hn, ?_⟩
    · simp [List.countP_cons, List.countP_nil, isMutation, isProductQuery, isAICall]
    · simp [List.countP_cons, List.countP_nil, isAICall]
  · rw [runAction_generate_eq env p pid hpid hne hact]
    refine ⟨fun hu => absurd hu hact, fun _ => ?_, ?_⟩ <;>
      rcases runGenerate_trace_cases env pid with h | ⟨u, h⟩ | ⟨u, r, h⟩ | ⟨r, h⟩ <;>
        rw [h] <;>
        simp [List.countP_cons, List.countP_nil, isMutation, isProductQuery, isAICall]

/-- Witness for C6: a generate call on a product with an image and a
healthy environment. -/
theorem dispatch_total_and_exclusive_witness :
    ((Payload.mk (some "gid://shopify/Product/6") (some "generate") none).productId
        = some "gid://shopify/Product/6" ∧
      "gid://shopify/Product/6" ≠ "") ∧
    ((Payload.mk (some "gid://shopify/Product/6") (some "generate") none).action
        = some "update" →
        ((runAction
            (Env.mk (.error "u6")
              (.ok (some { title := "Mug", variants := [] }))
              (.ok "b64")
              (.ok { status := 200, body := .ok { content := some [{ text := some "A mug." }] } }))
            (Payload.mk (some "gid://shopify/Product/6") (some "generate") none)).2.countP
            isMutation = 1 ∧
         (runAction
            (Env.mk (.error "u6")
              (.ok (some { title := "Mug", variants := [] }))
              (.ok "b64")
              (.ok { status := 200, body := .ok { content := some [{ text := some "A mug." }] } }))
            (Payload.mk (some "gid://shopify/Product/6") (some "generate") none)).2.countP
            isProductQuery = 0 ∧
         (runAction
            (Env.mk (.error "u6")
              (.ok (some { title := "Mug", variants := [] }))
              (.ok "b64")
              (.ok { status := 200, body := .ok { content := some [{ text := some "A mug." }] } }))
            (Payload.mk (some "gid://shopify/Product/6") (some "generate") none)).2.countP
            isAICall = 0)) ∧
    ((Payload.mk (some "gid://shopify/Product/6") (some "generate") none).action
        ≠ some "update" →
        ((runAction
            (Env.mk (.error "u6")
              (.ok (some { title := "Mug", variants := [] }))
              (.ok "b64")
              (.ok { status := 200, body := .ok { content := some [{ text := some "A mug." }] } }))
            (Payload.mk (some "gid://shopify/Product/6") (some "generate") none)).2.countP
            isProductQuery = 1 ∧
         (runAction
            (Env.mk (.error "u6")
              (.ok (some { title := "Mug", variants := [] }))
              (.ok "b64")
              (.ok { status := 200, body := .ok { content := some [{ text := some "A mug." }] } }))
            (Payload.mk (some "gid://shopify/Product/6") (some "generate") none)).2.countP
            isMutation = 0 ∧
         (runAction
            (Env.mk (.error "u6")
              (.ok (some { title := "Mug", variants := [] }))
              (.ok "b64")
              (.ok { status := 200, body := .ok { content := some [{ text := some "A mug." }] } }))
            (Payload.mk (some "gid://shopify/Product/6") (some "generate") none)).2.countP
            isAICall ≤ 1)) ∧
    ¬(1 ≤ (runAction
            (Env.mk (.error "u6")
              (.ok (some { title := "Mug", variants := [] }))
              (.ok "b64")
              (.ok { status := 200, body := .ok { content := some [{ text := some "A mug." }] } }))
            (Payload.mk (some "gid://shopify/Product/6") (some "generate") none)).2.countP
            isMutation ∧
      1 ≤ (runAction
            (Env.mk (.error "u6")
              (.ok (some { title := "Mug", variants := [] }))
              (.ok "b64")
              (.ok { status := 200, body := .ok { content := some [{ text := some "A mug." }] } }))
            (Payload.mk (some "gid://shopify/Product/6") (some "generate") none)).2.countP
            isAICall) :=
  ⟨⟨rfl, by decide⟩,
    dispatch_total_and_exclusive
      (Env.mk (.error "u6")
        (.ok (some { title := "Mug", variants := [] }))
        (.ok "b64")
        (.ok { status := 200, body := .ok { content := some [{ text := some "A mug." }] } }))
      (Payload.mk (some "gid://shopify/Product/6") (some "generate") none)
      "gid://shopify/Product/6" rfl (by decide)⟩

/-- C7: on a successful publish, the returned public URL is
`onlineStoreUrl || onlineStorePreviewUrl`: it equals the live storefront
URL whenever that is present (even if a preview URL is also present), and
falls back to the preview URL — hence to null when both are absent — when
the storefront URL is absent. -/
theorem publish_url_preference (env : Env) (p : Payload) (pid : String)
    (prod : UpdateProduct)
    (hpid : p.productId = some pid) (hne : pid ≠ "")
    (hact : p.action = some "update")
    (hupd : env.productUpdate = .ok prod) :
    (runAction env p).1 =
      .ok (.successEnvelope (jsOr prod.onlineStoreUrl prod.onlineStorePreviewUrl)) ∧
    (∀ u, prod.onlineStoreUrl = some u → u ≠ "" →
        jsOr prod.onlineStoreUrl prod.onlineStorePreviewUrl = some u) ∧
    (prod.onlineStoreUrl = none →
        jsOr prod.onlineStoreUrl prod.onlineStorePreviewUrl
          = prod.onlineStorePreviewUrl) := by
  refine ⟨?_, ?_, ?_⟩
  · rw [runAction_update_eq env p pid hpid hne hact]
    unfold runUpdate
    rw [hupd]
  · intro u hu hne'
    rw [hu]
    simp [jsOr, jsTruthy, hne']
  · intro hn
    rw [hn]
    simp [jsOr, jsTruthy]

/-- Witness for C7: storefront and preview URL both present — the
storefront URL wins. -/
theorem publish_url_preference_witness :
    ((Payload.mk (some "gid://shopify/Product/7") (some "update") (some "New copy")).productId
        = some "gid://shopify/Product/7" ∧
      "gid://shopify/Product/7" ≠ "" ∧
      (Payload.mk (some "gid://shopify/Product/7") (some "update") (some "New copy")).action
        = some "update" ∧
      (Env.mk (.ok { onlineStoreUrl := some "https://shop.example/products/mug",
                     onlineStorePreviewUrl := some "https://shop.example/preview/mug" })
          (.error "u7") (.error "u7") (.error "u7")).productUpdate
        = .ok { onlineStoreUrl := some "https://shop.example/products/mug",
                onlineStorePreviewUrl := some "https://shop.example/preview/mug" }) ∧
    ((runAction
        (Env.mk (.ok { onlineStoreUrl := some "https://shop.example/products/mug",
                       onlineStorePreviewUrl := some "https://shop.example/preview/mug" })
          (.error "u7") (.error "u7") (.error "u7"))
        (Payload.mk (some "gid://shopify/Product/7") (some "update") (some "New copy"))).1
      = .ok (.successEnvelope (jsOr (some "https://shop.example/products/mug")
              (some "https://shop.example/preview/mug"))) ∧
      (∀ u, (some "https://shop.example/products/mug" : Option String) = some u →
          u ≠ "" →
          jsOr (some "https://shop.example/products/mug")
              (some "https://shop.example/preview/mug") = some u) ∧
      ((some "https://shop.example/products/mug" : Option String) = none →
          jsOr (some "https://shop.example/products/mug")
              (some "https://shop.example/preview/mug")
            = some "https://shop.example/preview/mug")) :=
  ⟨⟨rfl, by decide, rfl, rfl⟩,
    publish_url_preference
      (Env.mk (.ok { onlineStoreUrl := some "https://shop.example/products/mug",
                     onlineStorePreviewUrl := some "https://shop.example/preview/mug" })
        (.error "u7") (.error "u7") (.error "u7"))
      (Payload.mk (some "gid://shopify/Product/7") (some "update") (some "New copy"))
      "gid://shopify/Product/7"
      { onlineStoreUrl := some "https://shop.example/products/mug",
        onlineStorePreviewUrl := some "https://shop.example/preview/mug" }
      rfl (by decide) rfl rfl⟩

/-- C8 counterexample: an update call whose payload has NO description
field is not rejected — the handler proceeds, issues the write mutation
with a null description, and returns success.  So the orchestrator does
not "require a description field in the payload". -/
theorem update_requires_description_counterexample :
    runAction
        (Env.mk (.ok { onlineStoreUrl := some "https://shop.example/products/mug",
                       onlineStorePreviewUrl := none })
          (.error "unused") (.error "unused") (.error "unused"))
        (Payload.mk (some "gid://shopify/Product/8") (some "update") none)
      = (.ok (.successEnvelope (some "https://shop.example/products/mug")),
         [ExtCall.updateMutation "gid://shopify/Product/8" none]) := by
  rfl

/-- C8 amended: the orchestrator does not require (nor validate) the
description on update calls: the payload's `description` field — absent,
empty, or any string — is passed to the write mutation verbatim, with no
sanitization and no length cap. -/
theorem update_passes_description_verbatim (env : Env) (p : Payload)
    (pid : String)
    (hpid : p.productId = some pid) (hne : pid ≠ "")
    (hact : p.action = some "update") :
    (runAction env p).2 = [ExtCall.updateMutation pid p.description] := by
  rw [runAction_update_eq env p pid hpid hne hact, runUpdate_snd]

/-- Witness for the amended C8: the empty-string description is passed
through verbatim. -/
theorem update_passes_description_verbatim_witness :
    ((Payload.mk (some "gid://shopify/Product/8") (some "update") (some "")).productId
        = some "gid://shopify/Product/8" ∧
      "gid://shopify/Product/8" ≠ "" ∧
      (Payload.mk (some "gid://shopify/Product/8") (some "update") (some "")).action
        = some "update") ∧
    (runAction
        (Env.mk (.ok { onlineStoreUrl := none, onlineStorePreviewUrl := none })
          (.error "u8") (.error "u8") (.error "u8"))
        (Payload.mk (some "gid://shopify/Product/8") (some "update") (some ""))).2
      = [ExtCall.updateMutation "gid://shopify/Product/8" (some "")] :=
  ⟨⟨rfl, by decide, rfl⟩,
    update_passes_description_verbatim
      (Env.mk (.ok { onlineStoreUrl := none, onlineStorePreviewUrl := none })
        (.error "u8") (.error "u8") (.error "u8"))
      (Payload.mk (some "gid://shopify/Product/8") (some "update") (some ""))
      "gid://shopify/Product/8" rfl (by decide) rfl⟩

/-- C9: the composed prompt is the fixed template — the product title
after `"Title: "`, the comma-joined `"title - $price"` variant entries
after `"Variants: "` — and the image-context clause is appended exactly
when the product's featured image URL is present (truthy).  In the
`"Blue Mug"` scenario (one variant `Default` at `12.00`, no image) the
prompt contains `"Title: Blue Mug"` and `"Variants: Default - $12.00"`
and no image-context clause. -/
theorem prompt_composition (env : Env) (p : Payload) (pid : String)
    (prod : Product) (b64 : String)
    (hpid : p.productId = some pid) (hne : pid ≠ "")
    (hact : p.action ≠ some "update")
    (hlookup : env.productLookup = .ok (some prod))
    (himg : env.imageFetch = .ok b64) :
    (∃ req, ExtCall.aiCall req ∈ (runAction env p).2 ∧
        req.text = buildPromptBase prod.title
            ((prod.variants.take generateVariantsFirst).map formatVariant)
          ++ (if jsTruthy prod.featuredImageUrl then imageClause else "")) ∧
    strContains (buildPromptText "Blue Mug" [formatVariant ⟨"", "Default", "12.00"⟩] false)
        "Title: Blue Mug" = true ∧
    strContains (buildPromptText "Blue Mug" [formatVariant ⟨"", "Default", "12.00"⟩] false)
        "Variants: Default - $12.00" = true ∧
    strContains (buildPromptText "Blue Mug" [formatVariant ⟨"", "Default", "12.00"⟩] false)
        imageClause = false := by
  refine ⟨?_, by decide, by decide, by decide⟩
  rw [runAction_generate_eq env p pid hpid hne hact]
  cases himgurl : jsTruthy prod.featuredImageUrl
  · rw [runGenerate_noimage env pid prod hlookup himgurl, runAICall_snd]
    refine ⟨generateRequest prod none, by simp, ?_⟩
    simp [generateRequest, buildPromptText, himgurl]
  · rw [runGenerate_image_ok env pid prod b64 hlookup himgurl himg, runAICall_snd]
    refine ⟨generateRequest prod (some b64), by simp, ?_⟩
    simp [generateRequest, buildPromptText, himgurl]

/-- Witness for C9: the `"Blue Mug"` product run end to end. -/
theorem prompt_composition_witness :
    ((Payload.mk (some "gid://shopify/Product/9") (some "generate") none).productId
        = some "gid://shopify/Product/9" ∧
      "gid://shopify/Product/9" ≠ "" ∧
      (Payload.mk (some "gid://shopify/Product/9") (some "generate") none).action
        ≠ some "update" ∧
      (Env.mk (.error "u9")
          (.ok (some { title := "Blue Mug",
                       variants := [⟨"", "Default", "12.00"⟩] }))
          (.ok "b64") (.ok { status := 200, body := .ok {} })).productLookup
        = .ok (some { title := "Blue Mug",
                      variants := [⟨"", "Default", "12.00"⟩] })) ∧
    ((∃ req, ExtCall.aiCall req ∈ (runAction
          (Env.mk (.error "u9")
            (.ok (some { title := "Blue Mug",
                         variants := [⟨"", "Default", "12.00"⟩] }))
            (.ok "b64") (.ok { status := 200, body := .ok {} }))
          (Payload.mk (some "gid://shopify/Product/9") (some "generate") none)).2 ∧
        req.text = buildPromptBase "Blue Mug"
            (([⟨"", "Default", "12.00"⟩] : List Variant).take generateVariantsFirst
              |>.map formatVariant)
          ++ (if jsTruthy (Product.mk "" "Blue Mug" none none
                [⟨"", "Default", "12.00"⟩] none).featuredImageUrl
              then imageClause else "")) ∧
      strContains (buildPromptText "Blue Mug" [formatVariant ⟨"", "Default", "12.00"⟩] false)
          "Title: Blue Mug" = true ∧
      strContains (buildPromptText "Blue Mug" [formatVariant ⟨"", "Default", "12.00"⟩] false)
          "Variants: Default - $12.00" = true ∧
      strContains (buildPromptText "Blue Mug" [formatVariant ⟨"", "Default", "12.00"⟩] false)
          imageClause = false) :=
  ⟨⟨rfl, by decide, by decide, rfl⟩,
    prompt_composition
      (Env.mk (.error "u9")
        (.ok (some { title := "Blue Mug",
                     variants := [⟨"", "Default", "12.00"⟩] }))
        (.ok "b64") (.ok { status := 200, body := .ok {} }))
      (Payload.mk (some "gid://shopify/Product/9") (some "generate") none)
      "gid://shopify/Product/9"
      { title := "Blue Mug", variants := [⟨"", "Default", "12.00"⟩] }
      "b64" rfl (by decide) (by decide) rfl rfl⟩

theorem runLoader_variants (store : List Product) :
    (runLoader store).map (fun q => q.variants)
      = (store.take loaderProductsFirst).map
          (fun q => q.variants.take loaderVariantsFirst) := by
  unfold runLoader
  rw [List.map_map]
  rfl

/-- Six variants, for the truncation instance of C10. -/
def sixVariants : List Variant :=
  [⟨"", "Size 1", "10.00"⟩, ⟨"", "Size 2", "10.00"⟩, ⟨"", "Size 3", "10.00"⟩,
   ⟨"", "Size 4", "10.00"⟩, ⟨"", "Size 5", "10.00"⟩, ⟨"", "Size 6", "10.00"⟩]

/-- C10 (implicit): variant data is truncated to the first 5 variants
everywhere — the loader's catalog read keeps only the first 5 variants of
each of the first 20 products, and the generate path's prompt lists
exactly the first 5 variants of a product with more than five, not an
entry for every variant (for six `Size i` variants, `Size 5` appears in
the prompt and `Size 6` does not). -/
theorem variants_truncated_to_first_five (env : Env) (p : Payload)
    (pid : String) (prod : Product) (b64 : String)
    (hpid : p.productId = some pid) (hne : pid ≠ "")
    (hact : p.action ≠ some "update")
    (hlookup : env.productLookup = .ok (some prod))
    (himg : env.imageFetch = .ok b64)
    (hlong : 5 < prod.variants.length) :
    (∃ req, ExtCall.aiCall req ∈ (runAction env p).2 ∧
        req.text = buildPromptText prod.title
            ((prod.variants.take 5).map formatVariant)
            (jsTruthy prod.featuredImageUrl) ∧
        ((prod.variants.take 5).map formatVariant).length = 5 ∧
        ((prod.variants.take 5).map formatVariant).length
          < prod.variants.length) ∧
    (∀ store : List Product,
        (runLoader store).map (fun q => q.variants)
          = (store.take loaderProductsFirst).map
              (fun q => q.variants.take loaderVariantsFirst)) ∧
    (sixVariants.take 5).map formatVariant
      = ["Size 1 - $10.00", "Size 2 - $10.00", "Size 3 - $10.00",
         "Size 4 - $10.00", "Size 5 - $10.00"] ∧
    strContains (buildPromptText "Tee" ((sixVariants.take 5).map formatVariant) false)
        "Size 5 - $10.00" = true ∧
    strContains (buildPromptText "Tee" ((sixVariants.take 5).map formatVariant) false)
        "Size 6" = false := by
  refine ⟨?_, runLoader_variants, by decide, by decide, by decide⟩
  have hlen : ((prod.variants.take 5).map formatVariant).length = 5 := by
    simp only [List.length_map, List.length_take]
    omega
  rw [runAction_generate_eq env p pid hpid hne hact]
  cases himgurl : jsTruthy prod.featuredImageUrl
  · rw [runGenerate_noimage env pid prod hlookup himgurl, runAICall_snd]
    refine ⟨generateRequest prod none, by simp, ?_, hlen, by omega⟩
    simp [generateRequest, generateVariantsFirst, himgurl]
  · rw [runGenerate_image_ok env pid prod b64 hlookup himgurl himg, runAICall_snd]
    refine ⟨generateRequest prod (some b64), by simp, ?_, hlen, by omega⟩
    simp [generateRequest, generateVariantsFirst, himgurl]

/-- Witness for C10: a six-variant product run end to end. -/
theorem variants_truncated_to_first_five_witness :
    ((Payload.mk (some "gid://shopify/Product/10") (some "generate") none).productId
        = some "gid://shopify/Product/10" ∧
      "gid://shopify/Product/10" ≠ "" ∧
      (Payload.mk (some "gid://shopify/Product/10") (some "generate") none).action
        ≠ some "update" ∧
      5 < sixVariants.length) ∧
    ((∃ req, ExtCall.aiCall req ∈ (runAction
          (Env.mk (.error "u10")
            (.ok (some { title := "Tee", variants := sixVariants }))
            (.ok "b64") (.ok { status := 200, body := .ok {} }))
          (Payload.mk (some "gid://shopify/Product/10") (some "generate") none)).2 ∧
        req.text = buildPromptText "Tee"
            ((sixVariants.take 5).map formatVariant)
            (jsTruthy (Product.mk "" "Tee" none none sixVariants none).featuredImageUrl) ∧
        ((sixVariants.take 5).map formatVariant).length = 5 ∧
        ((sixVariants.take 5).map formatVariant).length < sixVariants.length) ∧
      (∀ store : List Product,
          (runLoader store).map (fun q => q.variants)
            = (store.take loaderProductsFirst).map
                (fun q => q.variants.take loaderVariantsFirst)) ∧
      (sixVariants.take 5).map formatVariant
        = ["Size 1 - $10.00", "Size 2 - $10.00", "Size 3 - $10.00",
           "Size 4 - $10.00", "Size 5 - $10.00"] ∧
      strContains (buildPromptText "Tee" ((sixVariants.take 5).map formatVariant) false)
          "Size 5 - $10.00" = true ∧
      strContains (buildPromptText "Tee" ((sixVariants.take 5).map formatVariant) false)
          "Size 6" = false) :=
  ⟨⟨rfl, by decide, by decide, by decide⟩,
    variants_truncated_to_first_five
      (Env.mk (.error "u10")
        (.ok (some { title := "Tee", variants := sixVariants }))
        (.ok "b64") (.ok { status := 200, body := .ok {} }))
      (Payload.mk (some "gid://shopify/Product/10") (some "generate") none)
      "gid://shopify/Product/10"
      { title := "Tee", variants := sixVariants }
      "b64" rfl (by decide) (by decide) rfl rfl (by decide)⟩

end MeetupApp
